import Mathlib

/-!
# JobCatcher frontend chat core — verification of the streaming event engine

This file is a shallow embedding, in Lean 4, of the chat-handling core of
`frontend/js/chat.js` (the `ChatManager` class, "unified" iteration starting
at line 606): the SSE frame decoder (`handleUnifiedStreamingResponse`), the
event dispatcher (`processUnifiedEvent`), the tool-result handlers
(`handleToolResult`, `displayJobMatches`, `displayJobsInPanel`), the
markdown renderer (`formatMessage`, `parseMarkdown`,
`processListsEnhanced`, `escapeHtml`), and the session manager
(`clearSession`, `handleSendMessage`, `sendMessageToUnifiedBot`).

JavaScript strings are modelled as `List Char` (JS `String.prototype.split`
and the regex rules operate per UTF-16 code unit; every stream and message
considered here is plain text, so code points coincide).  DOM state that the
methods read or mutate (the indicator elements, the message containers) and
external collaborators (`window.jobsManager`) are modelled as explicit
fields of a `ChatState` record; DOM-only rendering calls that inspect no
state and produce no state visible to any claim (scrolling, CSS animation)
are not modelled.  Asynchrony: the code is single-threaded and every event
of a chunk is fully processed before the next chunk is read, so the stream
loop is embedded as a left fold over the decoded event list.
-/

namespace JobCatcher

/-! ## Frame decoder (`handleUnifiedStreamingResponse`, chat.js 800-858)

The read loop decodes each chunk independently:

```js
const chunk = decoder.decode(value);
const lines = chunk.split('\n');
for (const line of lines) {
  if (line.startsWith('data: ')) {
    try { const data = JSON.parse(line.slice(6)); await this.processUnifiedEvent(...); }
    catch (e) { console.warn('Failed to parse event:', line, e); }
  }
}
```

There is no carry-over buffer between chunks.  `JSON.parse` is abstracted
as a `parse : List Char → Option ε` parameter (`none` = the exception
branch, which drops the line); concrete instances below restrict it to
numeric JSON payloads where its behaviour is unambiguous. -/

/-- JS `chunk.split('\n')`: split a chunk at every newline; a trailing
newline yields a final empty field, and `split` never returns `[]`. -/
def splitOnNl : List Char → List (List Char)
  | [] => [[]]
  | c :: rest =>
    if c = '\n' then [] :: splitOnNl rest
    else
      match splitOnNl rest with
      | [] => [[c]]
      | l :: ls => (c :: l) :: ls

/-- The SSE record prefix `'data: '` tested by `line.startsWith('data: ')`. -/
def dataPrefix : List Char := String.toList "data: "

/-- One iteration of the inner `for (const line of lines)` loop: a line is
decoded iff it carries the `data: ` prefix and its `line.slice(6)` suffix
parses; a parse failure is caught and the line is dropped. -/
def lineDecode {ε : Type} (parse : List Char → Option ε) (line : List Char) : Option ε :=
  if dataPrefix.isPrefixOf line then parse (line.drop 6) else none

/-- Decoding of one chunk: split on `'\n'`, keep the decodable lines. -/
def decodeChunk {ε : Type} (parse : List Char → Option ε) (chunk : List Char) : List ε :=
  (splitOnNl chunk).filterMap (lineDecode parse)

/-- The outer `while` loop: chunks are decoded independently, in arrival
order, with no carry-over of an unterminated line. -/
def decodeStream {ε : Type} (parse : List Char → Option ε) : List (List Char) → List ε
  | [] => []
  | chunk :: rest => decodeChunk parse chunk ++ decodeStream parse rest

/-- Concatenation of a list of chunks back into the underlying byte stream. -/
def catChunks {α : Type} : List (List α) → List α
  | [] => []
  | c :: cs => c ++ catChunks cs

/-- Render a list of lines as newline-terminated wire text. -/
def unlines : List (List Char) → List Char
  | [] => []
  | l :: ls => l ++ '\n' :: unlines ls

/-- `JSON.parse` restricted to non-negative decimal integer literals — the
subset used to instantiate the decoder on concrete streams.  It agrees with
`JSON.parse`: a digit string without a superfluous leading zero parses to
its value, everything else (in particular the empty string and any
truncated fragment of a record) throws. -/
def parseNatPayload (s : List Char) : Option Nat :=
  if s ≠ [] ∧ s.all Char.isDigit ∧ ¬ (1 < s.length ∧ s.headD ' ' = '0') then
    some (s.foldl (fun n c => 10 * n + (c.toNat - 48)) 0)
  else none

/-! ## Markdown renderer (`formatMessage` / `parseMarkdown`, chat.js 1613-1795)

`formatMessage` HTML-escapes the raw text, runs `parseMarkdown`, then
converts bare URLs to anchors.  `parseMarkdown` replaces fenced code blocks
and inline code spans by the placeholders `__CODE_BLOCK_i__` /
`__INLINE_CODE_i__`, applies the heading / bold / italic / list /
blockquote / horizontal-rule rules, substitutes the placeholders back, and
finally rewrites newlines to `<br>`.  Every JS regex below is embedded as a
character scanner with the exact leftmost / lazy / lookaround semantics of
the corresponding pattern; `fuel` arguments bound the recursion and are
always instantiated with the input length, which the scanners never
exhaust since each step consumes at least one input character. -/

/-- The backtick character (obtained from a string literal). -/
def btk : Char := List.headD (String.toList "`") 'x'

/-- `escapeHtml` (chat.js 1791): the entity encoding performed by
`div.textContent = text; div.innerHTML` — `&`, `<`, `>` are escaped. -/
def escapeHtmlC : List Char → List Char
  | [] => []
  | c :: rest =>
    (if c = '&' then String.toList "&amp;"
     else if c = '<' then String.toList "&lt;"
     else if c = '>' then String.toList "&gt;"
     else [c]) ++ escapeHtmlC rest

/-- First occurrence of `pat` in a list: returns the text before it and the
text after it, scanning left to right. -/
def findSub (pat : List Char) : List Char → Option (List Char × List Char)
  | [] => if pat.isPrefixOf ([] : List Char) then some ([], []) else none
  | c :: rest =>
    if pat.isPrefixOf (c :: rest) then some ([], (c :: rest).drop pat.length)
    else
      match findSub pat rest with
      | some (pre, post) => some (c :: pre, post)
      | none => none

/-- A run of three backticks — the fence delimiter. -/
def ticks : List Char := String.toList "```"

/-- The fenced-block placeholder `__CODE_BLOCK_i__`. -/
def cbPlaceholder (i : Nat) : List Char :=
  String.toList "__CODE_BLOCK_" ++ (Nat.repr i).toList ++ String.toList "__"

/-- The inline-code placeholder `__INLINE_CODE_i__`. -/
def icPlaceholder (i : Nat) : List Char :=
  String.toList "__INLINE_CODE_" ++ (Nat.repr i).toList ++ String.toList "__"

/-- Global replace of ```` /```([\s\S]*?)```/g ```` by placeholders
(chat.js 1639-1643): each leftmost fence pair is captured into the
`codeBlocks` array; without a closing fence nothing more matches. -/
def extractFenced : Nat → Nat → List Char → List Char × List (List Char)
  | 0, _, s => (s, [])
  | fuel + 1, idx, s =>
    match findSub ticks s with
    | none => (s, [])
    | some (pre, rest) =>
      match findSub ticks rest with
      | none => (s, [])
      | some (code, rest2) =>
        let t := extractFenced fuel (idx + 1) rest2
        (pre ++ cbPlaceholder idx ++ t.1, code :: t.2)

/-- Global replace of `` /`([^`]+)`/g `` by placeholders (chat.js
1646-1650): a backtick opens a span whose nonempty non-backtick content
must be closed by the next backtick; otherwise the scan advances. -/
def extractInline : Nat → Nat → List Char → List Char × List (List Char)
  | 0, _, s => (s, [])
  | _, _, [] => ([], [])
  | fuel + 1, idx, c :: rest =>
    if c = btk then
      let content := rest.takeWhile (fun ch => ch != btk)
      let after := rest.drop content.length
      if content.isEmpty then
        let t := extractInline fuel idx rest
        (c :: t.1, t.2)
      else
        match after with
        | a :: rest2 =>
          if a = btk then
            let t := extractInline fuel (idx + 1) rest2
            (icPlaceholder idx ++ t.1, content :: t.2)
          else
            let t := extractInline fuel idx rest
            (c :: t.1, t.2)
        | [] =>
          let t := extractInline fuel idx rest
          (c :: t.1, t.2)
    else
      let t := extractInline fuel idx rest
      (c :: t.1, t.2)

/-- Join lines with `'\n'` — `result.join('\n')` / the effect of a
per-line (`gm`-flag) substitution. -/
def joinNl : List (List Char) → List Char
  | [] => []
  | [l] => l
  | l :: ls => l ++ '\n' :: joinNl ls

/-- Apply a `^...$`-anchored `gm` substitution to every line. -/
def perLine (f : List Char → List Char) (s : List Char) : List Char :=
  joinNl ((splitOnNl s).map f)

/-- `/^#### (.*$)/gm` → `<h4>$1</h4>` (chat.js 1653). -/
def h4Line (line : List Char) : List Char :=
  if (String.toList "#### ").isPrefixOf line then
    String.toList "<h4>" ++ line.drop 5 ++ String.toList "</h4>"
  else line

/-- `/^### (.*$)/gm` → `<h3>$1</h3>` (chat.js 1654). -/
def h3Line (line : List Char) : List Char :=
  if (String.toList "### ").isPrefixOf line then
    String.toList "<h3>" ++ line.drop 4 ++ String.toList "</h3>"
  else line

/-- `/^## (.*$)/gm` → `<h2>$1</h2>` (chat.js 1655). -/
def h2Line (line : List Char) : List Char :=
  if (String.toList "## ").isPrefixOf line then
    String.toList "<h2>" ++ line.drop 3 ++ String.toList "</h2>"
  else line

/-- `/^# (.*$)/gm` → `<h1>$1</h1>` (chat.js 1656). -/
def h1Line (line : List Char) : List Char :=
  if (String.toList "# ").isPrefixOf line then
    String.toList "<h1>" ++ line.drop 2 ++ String.toList "</h1>"
  else line

/-- The two bold rules `/\*\*([^*\n]+?)\*\*/g` and `/__([^_\n]+?)__/g`
(chat.js 1659-1660), parameterised by the marker character `m`.  The lazy
nonempty content excludes `m` and newline, so it ends at the first later
`m`, which must start a double `m` for the rule to fire; on failure the
regex engine advances one position. -/
def boldRule (m : Char) : Nat → List Char → List Char
  | 0, s => s
  | _, [] => []
  | fuel + 1, c :: rest =>
    if c = m then
      match rest with
      | c2 :: rest2 =>
        if c2 = m then
          let content := rest2.takeWhile (fun ch => ch != m && ch != '\n')
          let after := rest2.drop content.length
          if content.isEmpty then c :: boldRule m fuel rest
          else
            match after with
            | a1 :: a2 :: rest3 =>
              if a1 = m ∧ a2 = m then
                String.toList "<strong>" ++ content ++ String.toList "</strong>" ++
                  boldRule m fuel rest3
              else c :: boldRule m fuel rest
            | _ => c :: boldRule m fuel rest
        else c :: boldRule m fuel rest
      | [] => c :: boldRule m fuel rest
    else c :: boldRule m fuel rest

/-- The two italic rules `/(?<!\*)\*([^*\n]+?)\*(?!\*)/g` and
`/(?<!_)_([^_\n]+?)_(?!_)/g` (chat.js 1663-1664), parameterised by the
marker `m`.  `prev` is the character of the original string immediately
before the scan position (the negative lookbehind); the negative lookahead
inspects the character after the closing marker. -/
def italRule (m : Char) : Nat → Option Char → List Char → List Char
  | 0, _, s => s
  | _, _, [] => []
  | fuel + 1, prev, c :: rest =>
    if c = m ∧ prev ≠ some m then
      let content := rest.takeWhile (fun ch => ch != m && ch != '\n')
      let after := rest.drop content.length
      if content.isEmpty then c :: italRule m fuel (some c) rest
      else
        match after with
        | a1 :: rest3 =>
          if a1 = m ∧ rest3.headD ' ' ≠ m then
            String.toList "<em>" ++ content ++ String.toList "</em>" ++
              italRule m fuel (some m) rest3
          else c :: italRule m fuel (some c) rest
        | [] => c :: italRule m fuel (some c) rest
    else c :: italRule m fuel (some c) rest

/-- JS `line.trim()`. -/
def trimC (l : List Char) : List Char :=
  ((l.dropWhile Char.isWhitespace).reverse.dropWhile Char.isWhitespace).reverse

/-- `/^[-*] (.+)/.test(trimmedLine)` (chat.js 1711). -/
def isULItem (t : List Char) : Bool :=
  match t with
  | a :: b :: _ :: _ => (a == '-' || a == '*') && b == ' '
  | _ => false

/-- `/^\d+\. (.+)/.test(trimmedLine)` (chat.js 1734). -/
def isOLItem (t : List Char) : Bool :=
  let ds := t.takeWhile Char.isDigit
  let rest := t.drop ds.length
  !ds.isEmpty &&
    (match rest with
     | a :: b :: _ :: _ => a == '.' && b == ' '
     | _ => false)

/-- `processListsEnhanced` (chat.js 1695-1786): the imperative loop over
lines with mutable `inUnorderedList` / `inOrderedList` / `listLevel`,
transliterated with the flags and level passed explicitly. -/
def processLines : List (List Char) → Bool → Bool → Nat → List (List Char)
  | [], inUL, inOL, level =>
    (if inUL then List.replicate (level + 1) (String.toList "</ul>") else []) ++
    (if inOL then List.replicate (level + 1) (String.toList "</ol>") else [])
  | line :: rest, inUL, inOL, level =>
    let trimmed := trimC line
    let indent := (line.takeWhile Char.isWhitespace).length
    let currentLevel := indent / 2
    if isULItem trimmed then
      let closeOL := if inOL then [String.toList "</ol>"] else []
      let adjust :=
        if !inUL || currentLevel != level then
          (if inUL && level < currentLevel then [String.toList "<ul>"]
           else if inUL && currentLevel < level then
             List.replicate (level - currentLevel) (String.toList "</ul>")
           else if !inUL then [String.toList "<ul>"]
           else [], true, currentLevel)
        else ([], inUL, level)
      closeOL ++ adjust.1 ++
        [String.toList "<li>" ++ trimmed.drop 2 ++ String.toList "</li>"] ++
        processLines rest adjust.2.1 false adjust.2.2
    else if isOLItem trimmed then
      let closeUL := if inUL then [String.toList "</ul>"] else []
      let adjust :=
        if !inOL || currentLevel != level then
          (if inOL && level < currentLevel then [String.toList "<ol>"]
           else if inOL && currentLevel < level then
             List.replicate (level - currentLevel) (String.toList "</ol>")
           else if !inOL then [String.toList "<ol>"]
           else [], true, currentLevel)
        else ([], inOL, level)
      let ds := trimmed.takeWhile Char.isDigit
      closeUL ++ adjust.1 ++
        [String.toList "<li>" ++ trimmed.drop (ds.length + 2) ++ String.toList "</li>"] ++
        processLines rest false adjust.2.1 adjust.2.2
    else
      (if inUL then List.replicate (level + 1) (String.toList "</ul>") else []) ++
      (if inOL then List.replicate (level + 1) (String.toList "</ol>") else []) ++
      line :: processLines rest false false 0

/-- `this.processListsEnhanced(html)` — split, loop, re-join. -/
def processListsC (s : List Char) : List Char :=
  joinNl (processLines (splitOnNl s) false false 0)

/-- `/^> (.*$)/gm` → `<blockquote>$1</blockquote>` (chat.js 1670). -/
def bqLine (line : List Char) : List Char :=
  if (String.toList "> ").isPrefixOf line then
    String.toList "<blockquote>" ++ line.drop 2 ++ String.toList "</blockquote>"
  else line

/-- `/^---+$/gm` → `<hr>` (chat.js 1673). -/
def hrDashLine (line : List Char) : List Char :=
  if 3 ≤ line.length ∧ line.all (fun c => c == '-') then String.toList "<hr>" else line

/-- `/^\*\*\*+$/gm` → `<hr>` (chat.js 1674). -/
def hrStarLine (line : List Char) : List Char :=
  if 3 ≤ line.length ∧ line.all (fun c => c == '*') then String.toList "<hr>" else line

/-- JS `String.prototype.replace` with a string pattern: replace the first
occurrence only; if the pattern does not occur the input is unchanged. -/
def replaceFirst (pat rep : List Char) : List Char → List Char
  | [] => []
  | c :: rest =>
    if pat.isPrefixOf (c :: rest) then rep ++ (c :: rest).drop pat.length
    else c :: replaceFirst pat rep rest

/-- The restore loop for fenced blocks (chat.js 1677-1679): each stored
block is substituted — escaped — for the first occurrence of its
placeholder. -/
def restoreBlocks (blocks : List (List Char)) (html : List Char) : List Char :=
  blocks.enum.foldl
    (fun h p =>
      replaceFirst (cbPlaceholder p.1)
        (String.toList "<pre><code>" ++ escapeHtmlC p.2 ++ String.toList "</code></pre>") h)
    html

/-- The restore loop for inline code (chat.js 1682-1684). -/
def restoreInline (codes : List (List Char)) (html : List Char) : List Char :=
  codes.enum.foldl
    (fun h p =>
      replaceFirst (icPlaceholder p.1)
        (String.toList "<code>" ++ escapeHtmlC p.2 ++ String.toList "</code>") h)
    html

/-- The tag alternatives of the `<br>` rule's negative lookahead
`(?!<\/?(h[1-6]|ul|ol|li|blockquote|pre|hr|div))`. -/
def brTagNames : List (List Char) :=
  [String.toList "h1", String.toList "h2", String.toList "h3", String.toList "h4",
   String.toList "h5", String.toList "h6", String.toList "ul", String.toList "ol",
   String.toList "li", String.toList "blockquote", String.toList "pre",
   String.toList "hr", String.toList "div"]

/-- The negative lookahead of the `<br>` rule: true when the text after the
newline starts with `<`, an optional `/`, and one of the block tags. -/
def brLookahead (rest : List Char) : Bool :=
  match rest with
  | c :: r1 =>
    if c = '<' then
      let r2 := match r1 with
        | c2 :: t => if c2 = '/' then t else r1
        | [] => r1
      brTagNames.any (fun tag => tag.isPrefixOf r2)
    else false
  | [] => false

/-- `/\n(?!<\/?(h[1-6]|ul|ol|li|blockquote|pre|hr|div))/g` → `<br>`
(chat.js 1687). -/
def brRule : List Char → List Char
  | [] => []
  | c :: rest =>
    if c = '\n' then
      if brLookahead rest then c :: brRule rest
      else String.toList "<br>" ++ brRule rest
    else c :: brRule rest

/-- `[^\s<]` — a character allowed inside a bare URL. -/
def urlChar (c : Char) : Bool := !c.isWhitespace && c != '<'

/-- `/(https?:\/\/[^\s<]+)/g` → anchor (chat.js 1623-1626). -/
def linkify : Nat → List Char → List Char
  | 0, s => s
  | _, [] => []
  | fuel + 1, c :: rest =>
    let s := c :: rest
    let schemeLen :=
      if (String.toList "https://").isPrefixOf s then 8
      else if (String.toList "http://").isPrefixOf s then 7
      else 0
    if schemeLen = 0 then c :: linkify fuel rest
    else
      let tl := s.drop schemeLen
      let run := tl.takeWhile urlChar
      if run.isEmpty then c :: linkify fuel rest
      else
        let url := s.take schemeLen ++ run
        String.toList "<a href=\"" ++ url ++
          String.toList "\" target=\"_blank\" rel=\"noopener noreferrer\">" ++ url ++
          String.toList "</a>" ++ linkify fuel (tl.drop run.length)

/-- `parseMarkdown` (chat.js 1634-1690): the full substitution pipeline in
source order. -/
def parseMarkdownC (s : List Char) : List Char :=
  let p1 := extractFenced s.length 0 s
  let p2 := extractInline p1.1.length 0 p1.1
  let h := p2.1
  let h := perLine h4Line h
  let h := perLine h3Line h
  let h := perLine h2Line h
  let h := perLine h1Line h
  let h := boldRule '*' h.length h
  let h := boldRule '_' h.length h
  let h := italRule '*' h.length none h
  let h := italRule '_' h.length none h
  let h := processListsC h
  let h := perLine bqLine h
  let h := perLine hrDashLine h
  let h := perLine hrStarLine h
  let h := restoreBlocks p1.2 h
  let h := restoreInline p2.2 h
  brRule h

/-- `formatMessage` (chat.js 1613-1629): falsy input renders as empty;
otherwise escape, parse markdown, link URLs. -/
def formatMessageC (s : List Char) : List Char :=
  if s.isEmpty then []
  else
    let f := parseMarkdownC (escapeHtmlC s)
    linkify f.length f

/-! ## Data model and event dispatcher (`ChatManager`, chat.js 606-1894)

The mutable fields of the unified `ChatManager` instance, together with the
DOM and collaborator state its methods read or write, form `ChatState`.
The indicator elements are modelled structurally: the web-search indicator
is a class-selected singleton (`showWebSearchIndicator` always removes the
previous one first), so a `Bool` suffices; `showToolExecutionIndicator`
appends a *new* `div` with the fixed id `tool-execution-indicator` without
removing an existing one, and `getElementById` resolves duplicated ids to
the first element in document order, so those indicators form a list of
labels in DOM order and `hide` removes the head.  Calls delivered to the
left job panel (`window.jobsManager.displayJobs`) and to the fallback
renderer are recorded as ordered call logs. -/

/-- An opaque job object from a `job_data` payload or a match result. -/
structure Job where
  payload : String
deriving DecidableEq, Repr

/-- One element of `result.matches`: `{job, match_score, match_reasons}`. -/
structure JobMatch where
  job : Job
  match_score : String
  match_reasons : String
deriving DecidableEq, Repr

/-- A job as handed to the panel: `displayJobMatches` spreads
`match.job` and adds the two match fields; raw `job_data` jobs carry
neither. -/
structure PanelJob where
  job : Job
  match_score : Option String
  match_reasons : Option String
deriving DecidableEq, Repr

/-- The `result` payload of a `tool_execution_complete` event, reduced to
the fields the handlers test: the truthiness of `result.error`, the
`result.matches` array (`none` = absent or falsy), and the truthiness of
`result.skills`. -/
structure ToolResult where
  error : Bool
  «matches» : Option (List JobMatch)
  skills : Bool
deriving DecidableEq, Repr

/-- `event.content_block`: `{type, name}` (the `id` is only logged). -/
structure CBlock where
  type : String
  name : String
deriving DecidableEq, Repr

/-- One entry of `this.chatHistory`: `{role, content}`. -/
structure HistMsg where
  role : String
  content : String
deriving DecidableEq, Repr

/-- `this.uploadedFile`, reduced to an opaque record tag. -/
structure UploadedFile where
  filename : String
deriving DecidableEq, Repr

/-- `this.sessionState`: the tool-result cache. -/
structure SessionCache where
  resumeAnalysis : Option ToolResult
  jobPostings : List Job
  toolResults : List ToolResult
deriving DecidableEq, Repr

/-- One call to the job panel (or the fallback): the job list and the
`matchType` argument it was displayed under. -/
structure PanelCall where
  jobs : List PanelJob
  match_type : String
deriving DecidableEq, Repr

/-- One `showNotification(message, type)` call. -/
structure Notification where
  text : String
  kind : String
deriving DecidableEq, Repr

/-- The decoded stream events dispatched by `processUnifiedEvent`
(chat.js 863-979).  String payload fields use `""` for a missing or falsy
JSON field (the code only ever tests them for truthiness or equality with
nonempty constants); `job_data.match_type` keeps `Option` because an
`undefined` value selects the `'general'` default parameter. -/
inductive UEvent where
  | start
  | text_start
  | text (content : String)
  | text_delta (content : String)
  | content_block_start (content_block : Option CBlock)
  | tool_use_start (tool_name : String)
  | web_search_result
  | tool_input_delta
  | tool_execution_start (tool_name : String)
  | tool_execution_complete (tool_name : String) (result : Option ToolResult)
  | conversation_complete
  | error (content : String)
  | job_data (jobs : Option (List Job)) (match_type : Option String)
  | complete (session_id : String)
  | unknown
deriving DecidableEq, Repr

/-- The state of one `ChatManager` (chat.js 607-624) plus the DOM /
collaborator surface its methods touch. -/
structure ChatState where
  chatHistory : List HistMsg
  isTyping : Bool
  resumeUploaded : Bool
  /-- `this.currentStreamingMessage !== null` — a streaming container exists. -/
  hasStreamingMessage : Bool
  currentStreamingContent : String
  sessionId : Option String
  sessionState : SessionCache
  uploadedFile : Option UploadedFile
  /-- the `.typing-indicator-message` element is present. -/
  typingIndicator : Bool
  /-- the `.websearch-indicator-message` element is present. -/
  webSearchIndicator : Bool
  /-- labels of the `tool-execution-indicator` divs, in document order. -/
  toolIndicators : List String
  /-- calls delivered to `window.jobsManager.displayJobs`, tagged. -/
  panelCalls : List PanelCall
  /-- calls delivered to `fallbackDisplayJobs`. -/
  fallbackCalls : List PanelCall
  /-- the `.match-indicator.personalized` element is present. -/
  personalizedIndicator : Bool
  /-- texts of the error bubbles appended by `createErrorMessage`. -/
  errorMessages : List String
  notifications : List Notification
  /-- `window.jobsManager && typeof window.jobsManager.displayJobs === 'function'`. -/
  jobsManagerAvailable : Bool
deriving DecidableEq, Repr

/-- A fresh manager on a page where `jobs.js` has installed
`window.jobsManager`. -/
def initialChatState : ChatState where
  chatHistory := []
  isTyping := false
  resumeUploaded := false
  hasStreamingMessage := false
  currentStreamingContent := ""
  sessionId := none
  sessionState := ⟨none, [], []⟩
  uploadedFile := none
  typingIndicator := false
  webSearchIndicator := false
  toolIndicators := []
  panelCalls := []
  fallbackCalls := []
  personalizedIndicator := false
  errorMessages := []
  notifications := []
  jobsManagerAvailable := true

/-- `hideTypingIndicator` (chat.js 1529). -/
def hideTypingIndicator (st : ChatState) : ChatState :=
  { st with typingIndicator := false }

/-- `hideWebSearchIndicator` (chat.js 1571): removes the (single)
`.websearch-indicator-message` element if present. -/
def hideWebSearchIndicator (st : ChatState) : ChatState :=
  { st with webSearchIndicator := false }

/-- `showWebSearchIndicator` (chat.js 1539): removes any existing
web-search indicator, then appends one. -/
def showWebSearchIndicator (st : ChatState) : ChatState :=
  { st with webSearchIndicator := true }

/-- The `toolDisplayNames` label table (chat.js 1030-1036) with its
template-string default. -/
def toolDisplayName (tool_name : String) : String :=
  if tool_name = "analyze_resume" then "📄 Analyzing resume..."
  else if tool_name = "match_jobs_with_resume" then "🎯 Matching jobs..."
  else if tool_name = "generate_skill_heatmap" then "📊 Generating skill heatmap..."
  else if tool_name = "get_market_insights" then "💼 Getting market insights..."
  else if tool_name = "web_search" then "🌐 Searching latest information..."
  else "🔧 Using " ++ tool_name ++ "..."

/-- `showToolExecutionIndicator` (chat.js 1023-1057): hides the web-search
indicator, then appends a new `tool-execution-indicator` div — an already
visible tool indicator is *not* removed. -/
def showToolExecutionIndicator (st : ChatState) (tool_name : String) : ChatState :=
  let st := hideWebSearchIndicator st
  { st with toolIndicators := st.toolIndicators ++ [toolDisplayName tool_name] }

/-- `updateToolExecutionIndicator` (chat.js 1062-1070): relabels the first
indicator in document order, when one exists and the status is
`'executing'`. -/
def updateToolExecutionIndicator (st : ChatState) (tool_name status : String) : ChatState :=
  match st.toolIndicators with
  | [] => st
  | _ :: rest =>
    if status = "executing" then
      { st with toolIndicators := ("🔄 Executing " ++ tool_name ++ "...") :: rest }
    else st

/-- `hideToolExecutionIndicator` (chat.js 1075-1080): `getElementById`
returns the first element with the duplicated id, and only it is removed. -/
def hideToolExecutionIndicator (st : ChatState) : ChatState :=
  { st with toolIndicators := st.toolIndicators.tail }

/-- `addPersonalizedMatchIndicator` (chat.js 1133-1154): inserts the badge
unless it is already present (idempotent). -/
def addPersonalizedMatchIndicator (st : ChatState) : ChatState :=
  { st with personalizedIndicator := true }

/-- `showNotification` (chat.js 1863). -/
def showNotification (st : ChatState) (text kind : String) : ChatState :=
  { st with notifications := st.notifications ++ [⟨text, kind⟩] }

/-- `fallbackDisplayJobs` (chat.js 1159-1202): the minimal internal
rendering used when the jobs manager is unavailable. -/
def fallbackDisplayJobs (st : ChatState) (jobs : List PanelJob) (match_type : String) :
    ChatState :=
  { st with fallbackCalls := st.fallbackCalls ++ [⟨jobs, match_type⟩] }

/-- `displayJobsInPanel` (chat.js 1108-1128): forward to
`window.jobsManager.displayJobs` when available, add the personalized
badge only for `matchType === 'personalized'`, and post a success
notification; otherwise fall back. -/
def displayJobsInPanel (st : ChatState) (jobs : List PanelJob) (match_type : String) :
    ChatState :=
  if st.jobsManagerAvailable then
    let st := { st with panelCalls := st.panelCalls ++ [⟨jobs, match_type⟩] }
    let st := if match_type = "personalized" then addPersonalizedMatchIndicator st else st
    showNotification st
      ("Found " ++ toString jobs.length ++ " " ++ match_type ++ " job matches!") "success"
  else fallbackDisplayJobs st jobs match_type

/-- The spread `{...match.job, match_score, match_reasons}` performed by
`displayJobMatches` (chat.js 1091-1095). -/
def matchToPanelJob (m : JobMatch) : PanelJob :=
  ⟨m.job, some m.match_score, some m.match_reasons⟩

/-- A raw `job_data` job carries no match fields. -/
def rawPanelJob (j : Job) : PanelJob := ⟨j, none, none⟩

/-- `displayJobMatches` (chat.js 1087-1102): converts matches and displays
them under the `'matched'` tag; without a jobs manager it only logs. -/
def displayJobMatches (st : ChatState) (ms : List JobMatch) : ChatState :=
  if st.jobsManagerAvailable then
    displayJobsInPanel st (ms.map matchToPanelJob) "matched"
  else st

/-- `displaySkillHeatmap` (chat.js 1207-1210): the body is a comment. -/
def displaySkillHeatmap (st : ChatState) : ChatState := st

/-- `handleToolResult` (chat.js 984-1018): dispatch on the tool name. -/
def handleToolResult (st : ChatState) (tool_name : String) (result : Option ToolResult) :
    ChatState :=
  if tool_name = "analyze_resume" then
    match result with
    | some r =>
      if r.error = false then
        { st with sessionState := { st.sessionState with resumeAnalysis := some r } }
      else st
    | none => st
  else if tool_name = "match_jobs_with_resume" then
    match result with
    | some r =>
      match r.«matches» with
      | some ms => displayJobMatches st ms
      | none => st
    | none => st
  else if tool_name = "generate_skill_heatmap" then
    match result with
    | some r => if r.skills then displaySkillHeatmap st else st
    | none => st
  else if tool_name = "get_market_insights" then st
  else if tool_name = "web_search" then hideWebSearchIndicator st
  else st

/-- `createErrorMessage` (chat.js 1467-1490): appends an error bubble. -/
def createErrorMessage (st : ChatState) (txt : String) : ChatState :=
  { st with errorMessages := st.errorMessages ++ [txt] }

/-- `createEmptyBotMessage` (chat.js 1215-1236): appends the streaming
container (the `chat-messages` container is present on the page). -/
def createEmptyBotMessage (st : ChatState) : ChatState :=
  { st with hasStreamingMessage := true }

/-- `processUnifiedEvent` (chat.js 863-979): the `switch (type)` dispatcher.
`text` and `text_delta` share one branch; thinking-mode cases are commented
out in the source; unknown types only log. -/
def processUnifiedEvent (st : ChatState) (e : UEvent) : ChatState :=
  match e with
  | .start => st
  | .text_start => st
  | .text content | .text_delta content =>
    if content ≠ "" then
      let st := { st with currentStreamingContent := st.currentStreamingContent ++ content }
      if st.hasStreamingMessage = false ∧ st.currentStreamingContent.trim ≠ "" then
        createEmptyBotMessage (hideTypingIndicator st)
      else st
    else st
  | .content_block_start cb =>
    match cb with
    | some b =>
      if b.type = "server_tool_use" then
        if b.name = "web_search" then showWebSearchIndicator st
        else showToolExecutionIndicator st b.name
      else if b.type = "web_search_tool_result" then hideWebSearchIndicator st
      else st
    | none => st
  | .tool_use_start tn =>
    if tn = "web_search" then showWebSearchIndicator st
    else showToolExecutionIndicator st tn
  | .web_search_result => hideWebSearchIndicator st
  | .tool_input_delta => st
  | .tool_execution_start tn => updateToolExecutionIndicator st tn "executing"
  | .tool_execution_complete tn result => handleToolResult (hideToolExecutionIndicator st) tn result
  | .conversation_complete => hideTypingIndicator st
  | .error content => createErrorMessage st (if content ≠ "" then content else "An error occurred")
  | .job_data jobs mt =>
    match jobs with
    | some js => displayJobsInPanel st (js.map rawPanelJob) (mt.getD "general")
    | none => st
  | .complete _ => st
  | .unknown => st

/-- One iteration of the read loop's per-event tail (chat.js 822-834):
after `processUnifiedEvent`, a `complete` event installs the server-supplied
session id (`this.sessionId = data.session_id || this.sessionId`).  The
loop's local `currentContent` / `currentTool` variables are write-only with
respect to instance state and are not modelled. -/
def streamStep (st : ChatState) (e : UEvent) : ChatState :=
  let st := processUnifiedEvent st e
  match e with
  | .complete sid => { st with sessionId := if sid ≠ "" then some sid else st.sessionId }
  | _ => st

/-- The whole read loop over an already-decoded event sequence. -/
def runStream (st : ChatState) (events : List UEvent) : ChatState :=
  events.foldl streamStep st

/-- The `finally` block of `handleUnifiedStreamingResponse` (chat.js
845-857): hide all indicators, then append the accumulated text to the
history when nonempty. -/
def endStreamCleanup (st : ChatState) : ChatState :=
  let st := hideToolExecutionIndicator (hideWebSearchIndicator (hideTypingIndicator st))
  if st.currentStreamingContent ≠ "" then
    { st with chatHistory := st.chatHistory ++ [⟨"assistant", st.currentStreamingContent⟩] }
  else st

/-- `handleUnifiedStreamingResponse` (chat.js 800-858) on the decoded
event sequence: reset the streaming container and accumulator, run the
loop, clean up. -/
def handleUnifiedStreamingResponse (st : ChatState) (events : List UEvent) : ChatState :=
  let st := { st with hasStreamingMessage := false, currentStreamingContent := "" }
  endStreamCleanup (runStream st events)

/-- The `context` object built by `sendMessageToUnifiedBot` (chat.js
754-770): session id, last 10 history entries, the spread of
`this.sessionState`, and — when a document is attached — the uploaded file
with `resume_uploaded` forced to `true`. -/
structure RequestContext where
  session_id : Option String
  chat_history : List HistMsg
  resume_uploaded : Bool
  resumeAnalysis : Option ToolResult
  jobPostings : List Job
  toolResults : List ToolResult
  uploaded_file : Option UploadedFile
deriving DecidableEq, Repr

/-- Build the outgoing request context from the current state. -/
def buildContext (st : ChatState) : RequestContext :=
  let base : RequestContext :=
    { session_id := st.sessionId
      chat_history := st.chatHistory.drop (st.chatHistory.length - 10)
      resume_uploaded := st.resumeUploaded
      resumeAnalysis := st.sessionState.resumeAnalysis
      jobPostings := st.sessionState.jobPostings
      toolResults := st.sessionState.toolResults
      uploaded_file := none }
  match st.uploadedFile with
  | some f => { base with uploaded_file := some f, resume_uploaded := true }
  | none => base

/-- `sendMessageToUnifiedBot` (chat.js 750-795) on a successfully fetched
stream: the guard flag is raised before the first suspension point and
lowered in the `finally` block after the stream ends. -/
def sendMessageToUnifiedBot (st : ChatState) (events : List UEvent) : ChatState :=
  let st := { st with isTyping := true }
  let st := handleUnifiedStreamingResponse st events
  hideTypingIndicator { st with isTyping := false }

/-- `handleSendMessage` (chat.js 718-745) up to the dispatch decision: an
empty (trimmed) input or a turn in progress returns without side effects;
otherwise the user message is pushed onto the history
(`addUserMessageWithAnimation`, chat.js 1451) and a stream request is
issued.  The returned flag records whether a request was issued. -/
def handleSendMessage (st : ChatState) (rawInput : String) : ChatState × Bool :=
  let message := rawInput.trim
  if message = "" ∨ st.isTyping = true then (st, false)
  else ({ st with chatHistory := st.chatHistory ++ [⟨"user", message⟩] }, true)

/-- Whether the `DELETE /api/chat/session/<id>` promise awaited by
`clearSession` settles successfully.  `resolved` covers *every* settled
response — the code never reads `response.ok` or the status — while
`rejected` is a network-level fetch rejection, which jumps to the `catch`
block. -/
inductive FetchOutcome where
  | resolved
  | rejected
deriving DecidableEq, Repr

/-- `generateSessionId` (chat.js 644-647): `'session-' + Date.now() + '-' +
random`; the time-and-randomness suffix is abstracted as a nonce. -/
def mkSessionId (nonce : String) : String := "session-" ++ nonce

/-- `clearSession` (chat.js 1378-1410).  The local reset sits *after* the
awaited DELETE inside the `try` block: a rejected fetch skips every reset
and only shows the error notification.  On any settled response the
history, tool-result cache, resume flag and session id are reset —
`this.uploadedFile` is never touched on either path. -/
def clearSession (st : ChatState) (outcome : FetchOutcome) (nonce : String) : ChatState :=
  match outcome with
  | .rejected => showNotification st "Failed to clear session" "error"
  | .resolved =>
    let st := { st with
      chatHistory := []
      sessionState := ⟨none, [], []⟩
      resumeUploaded := false }
    let st := { st with sessionId := some (mkSessionId nonce) }
    showNotification st "Session cleared. You can start a new conversation." "success"

/-- Number of tool/web-search indicator elements currently in the DOM. -/
def visibleIndicatorCount (st : ChatState) : Nat :=
  st.toolIndicators.length + (if st.webSearchIndicator then 1 else 0)

/-- The content carried by a text-bearing event (`text` / `text_delta`). -/
def textEventContent : UEvent → Option String
  | .text c => some c
  | .text_delta c => some c
  | _ => none

/-- Concatenation `c1 ‖ c2 ‖ ... ‖ cN` of delta contents. -/
def catList : List String → String
  | [] => ""
  | c :: cs => c ++ catList cs

/-- `'data: ' + payload` — a well-formed record line for a given payload. -/
def dataLine (payload : List Char) : List Char := dataPrefix ++ payload

/-! ### Concrete fixtures used by counterexamples and witnesses -/

/-- A session mid-conversation: old id, history, attached resume, cached
analysis. -/
def c3ExState : ChatState :=
  { initialChatState with
    chatHistory := [⟨"user", "hi"⟩]
    sessionId := some "session-old"
    uploadedFile := some ⟨"resume.pdf"⟩
    resumeUploaded := true
    sessionState := ⟨some ⟨false, none, false⟩, [], []⟩ }

/-- A session with an attached document about to be cleared. -/
def c7ExState : ChatState :=
  { initialChatState with
    chatHistory := [⟨"user", "hi"⟩, ⟨"assistant", "hello"⟩]
    sessionId := some "session-old"
    uploadedFile := some ⟨"resume.pdf"⟩
    resumeUploaded := true }

/-- A sample job-matching match entry. -/
def exJobMatch : JobMatch := ⟨⟨"backend engineer, Berlin"⟩, "0.91", "skills overlap"⟩

/-- A successful `match_jobs_with_resume` result with one match. -/
def exMatchResult : ToolResult := ⟨false, some [exJobMatch], false⟩

/-! ## Theorems -/

/-! ### Frame-decoder lemmas -/

theorem splitOnNl_append_cons (l t : List Char) (h : '\n' ∉ l) :
    splitOnNl (l ++ '\n' :: t) = l :: splitOnNl t := by
  induction l with
  | nil => simp [splitOnNl]
  | cons c l ih =>
    have hc : c ≠ '\n' := fun hc => h (hc ▸ List.mem_cons_self c l)
    have hl : '\n' ∉ l := fun hm => h (List.mem_cons_of_mem c hm)
    simp only [List.cons_append, splitOnNl, if_neg hc, List.append_eq]
    rw [ih hl]

theorem splitOnNl_unlines (ls : List (List Char)) (h : ∀ l ∈ ls, '\n' ∉ l) :
    splitOnNl (unlines ls) = ls ++ [[]] := by
  induction ls with
  | nil => simp [unlines, splitOnNl]
  | cons l ls ih =>
    have hl : '\n' ∉ l := h l (List.mem_cons_self l ls)
    have hls : ∀ x ∈ ls, '\n' ∉ x := fun x hx => h x (List.mem_cons_of_mem l hx)
    simp only [unlines, splitOnNl_append_cons l _ hl, ih hls, List.cons_append]

theorem lineDecode_nil {ε : Type} (parse : List Char → Option ε) :
    lineDecode parse [] = none := rfl

theorem decodeChunk_unlines {ε : Type} (parse : List Char → Option ε)
    (ls : List (List Char)) (h : ∀ l ∈ ls, '\n' ∉ l) :
    decodeChunk parse (unlines ls) = ls.filterMap (lineDecode parse) := by
  unfold decodeChunk
  rw [splitOnNl_unlines ls h, List.filterMap_append]
  simp [lineDecode_nil]

theorem mem_catChunks {α : Type} {x : α} {cl : List α} {cs : List (List α)}
    (hcl : cl ∈ cs) (hx : x ∈ cl) : x ∈ catChunks cs := by
  induction cs with
  | nil => cases hcl
  | cons c cs ih =>
    rcases List.mem_cons.mp hcl with h | h
    · exact show x ∈ c ++ catChunks cs from List.mem_append.mpr (Or.inl (h ▸ hx))
    · exact show x ∈ c ++ catChunks cs from List.mem_append.mpr (Or.inr (ih h))

theorem decodeStream_unlines {ε : Type} (parse : List Char → Option ε)
    (css : List (List (List Char))) (h : ∀ l ∈ catChunks css, '\n' ∉ l) :
    decodeStream parse (css.map unlines) = (catChunks css).filterMap (lineDecode parse) := by
  induction css with
  | nil => simp [decodeStream, catChunks]
  | cons cl css ih =>
    have h1 : ∀ l ∈ cl, '\n' ∉ l := fun l hl =>
      h l (mem_catChunks (List.mem_cons_self cl css) hl)
    have h2 : ∀ l ∈ catChunks css, '\n' ∉ l := fun l hl => by
      refine h l ?_
      show l ∈ cl ++ catChunks css
      exact List.mem_append.mpr (Or.inr hl)
    show decodeChunk parse (unlines cl) ++ decodeStream parse (css.map unlines) = _
    rw [decodeChunk_unlines parse cl h1, ih h2]
    show _ = (cl ++ catChunks css).filterMap (lineDecode parse)
    rw [List.filterMap_append]


theorem lineDecode_dataLine {ε : Type} (parse : List Char → Option ε) (p : List Char) :
    lineDecode parse (dataLine p) = parse p := by
  unfold lineDecode dataLine
  rw [if_pos (List.isPrefixOf_iff_prefix.mpr (List.prefix_append _ _))]
  have h6 : dataPrefix.length = 6 := by decide
  rw [show (6 : Nat) = dataPrefix.length from h6.symm, List.drop_left]

theorem newline_not_mem_dataLine {p : List Char} (hp : '\n' ∉ p) : '\n' ∉ dataLine p := by
  intro hm
  rcases List.mem_append.mp hm with h | h
  · revert h; decide
  · exact hp h

theorem filterMap_parse_dataLines {ε : Type} (parse : List Char → Option ε)
    (goods : List (List Char)) (es : List ε) (h : goods.map parse = es.map some) :
    (goods.map dataLine).filterMap (lineDecode parse) = es := by
  induction goods generalizing es with
  | nil =>
    cases es with
    | nil => rfl
    | cons e es => simp at h
  | cons g gs ih =>
    cases es with
    | nil => simp at h
    | cons e es =>
      simp only [List.map_cons, List.cons.injEq] at h
      simp only [List.map_cons, List.filterMap_cons, lineDecode_dataLine, h.1]
      exact congrArg (e :: ·) (ih es h.2)

/-- **C1** (corrected).  Chunk-boundary independence as stated is false —
the read loop keeps no carry-over buffer — but it does hold for every
chunking that cuts the stream only at line terminators: any two ways of
grouping the same newline-terminated records into chunks decode to the
same event sequence. -/
theorem decode_line_boundary_chunk_independence {ε : Type} (parse : List Char → Option ε)
    (ls : List (List Char)) (css₁ css₂ : List (List (List Char)))
    (h1 : catChunks css₁ = ls) (h2 : catChunks css₂ = ls)
    (hnl : ∀ l ∈ ls, '\n' ∉ l) :
    decodeStream parse (css₁.map unlines) = decodeStream parse (css₂.map unlines) := by
  rw [decodeStream_unlines parse css₁ (by rw [h1]; exact hnl),
      decodeStream_unlines parse css₂ (by rw [h2]; exact hnl), h1, h2]

/-- Witness for C1: the records `data: 7` and `data: 8` decode to `[7, 8]`
whether they arrive in two chunks or one. -/
theorem decode_line_boundary_chunk_independence_witness :
    catChunks [[dataLine (String.toList "7")], [dataLine (String.toList "8")]]
      = [dataLine (String.toList "7"), dataLine (String.toList "8")] ∧
    decodeStream parseNatPayload
        ([[dataLine (String.toList "7")], [dataLine (String.toList "8")]].map unlines)
      = decodeStream parseNatPayload
        ([[dataLine (String.toList "7"), dataLine (String.toList "8")]].map unlines) :=
  ⟨by decide,
   decode_line_boundary_chunk_independence parseNatPayload
     [dataLine (String.toList "7"), dataLine (String.toList "8")] _ _
     (by decide) (by decide) (by decide)⟩

/-- **C1 counterexample**: one fixed byte stream, two chunkings.  Splitting
`"data: 42\n"` after the `4` makes the decoder parse the fragment `4` as a
complete record, so the decoded sequences differ (`[42]` vs `[4]`) although
the concatenated bytes are identical. -/
theorem decode_chunk_boundary_dependence :
    catChunks [String.toList "data: 4", String.toList "2\n"]
      = catChunks [String.toList "data: 42\n"] ∧
    decodeStream parseNatPayload [String.toList "data: 42\n"] = [42] ∧
    decodeStream parseNatPayload [String.toList "data: 4", String.toList "2\n"] = [4] ∧
    decodeStream parseNatPayload [String.toList "data: 42\n"]
      ≠ decodeStream parseNatPayload [String.toList "data: 4", String.toList "2\n"] := by
  decide

/-- **C8** (confirmed).  A stream carrying one malformed `data:` line
followed by N well-formed ones — delivered in any number of
line-terminated chunks — decodes to exactly the N events of the
well-formed lines: the malformed line is dropped without terminating
decoding. -/
theorem decode_malformed_line_dropped_rest_kept {ε : Type} (parse : List Char → Option ε)
    (bad : List Char) (goods : List (List Char)) (es : List ε)
    (css : List (List (List Char)))
    (hcss : catChunks css = dataLine bad :: goods.map dataLine)
    (hbadNl : '\n' ∉ bad)
    (hgoodNl : ∀ g ∈ goods, '\n' ∉ g)
    (hbad : parse bad = none)
    (hgood : goods.map parse = es.map some) :
    decodeStream parse (css.map unlines) = es ∧ es.length = goods.length := by
  constructor
  · have hnl : ∀ l ∈ catChunks css, '\n' ∉ l := by
      rw [hcss]
      intro l hl
      rcases List.mem_cons.mp hl with h | h
      · exact h ▸ newline_not_mem_dataLine hbadNl
      · obtain ⟨g, hg, rfl⟩ := List.mem_map.mp h
        exact newline_not_mem_dataLine (hgoodNl g hg)
    rw [decodeStream_unlines parse css hnl, hcss]
    simp only [List.filterMap_cons, lineDecode_dataLine, hbad]
    exact filterMap_parse_dataLines parse goods es hgood
  · have hlen := congrArg List.length hgood
    simpa using hlen.symm

/-- Witness for C8: `data: 4a` (malformed JSON) followed by `data: 7` and
`data: 8`, split into two chunks, decodes to exactly the two events. -/
theorem decode_malformed_line_dropped_rest_kept_witness :
    parseNatPayload (String.toList "4a") = none ∧
    decodeStream parseNatPayload
        ([[dataLine (String.toList "4a"), dataLine (String.toList "7")],
          [dataLine (String.toList "8")]].map unlines)
      = [7, 8] ∧
    ([7, 8] : List Nat).length = [String.toList "7", String.toList "8"].length :=
  ⟨by decide,
   (decode_malformed_line_dropped_rest_kept parseNatPayload (String.toList "4a")
      [String.toList "7", String.toList "8"] [7, 8] _
      (by decide) (by decide) (by decide) (by decide) (by decide)).1,
   (decode_malformed_line_dropped_rest_kept parseNatPayload (String.toList "4a")
      [String.toList "7", String.toList "8"] [7, 8]
      [[dataLine (String.toList "4a"), dataLine (String.toList "7")],
       [dataLine (String.toList "8")]]
      (by decide) (by decide) (by decide) (by decide) (by decide)).2⟩

/-- **C2** (code bug).  Code-block protection is broken: on the fenced
input ```` ```**not bold**``` ```` the renderer emits the corrupted
placeholder text `__CODE<em>BLOCK</em>0__` instead of a literal code
block.  The italic rule `/(?<!_)_([^_\n]+?)_(?!_)/g` rewrites the
`_BLOCK_` segment of the placeholder `__CODE_BLOCK_0__` to
`<em>BLOCK</em>` before the restore step (chat.js 1677) looks for the —
now absent — placeholder, so the stored block contents are never
substituted back. -/
theorem code_block_protection_broken_eval :
    formatMessageC (String.toList "```**not bold**```")
      = String.toList "__CODE<em>BLOCK</em>0__" ∧
    formatMessageC (String.toList "```**not bold**```")
      ≠ String.toList "<pre><code>**not bold**</code></pre>" := by
  decide

/-! ### Dispatcher lemmas -/

theorem processUnifiedEvent_text_content (st : ChatState) (c : String) :
    (processUnifiedEvent st (.text c)).currentStreamingContent
      = st.currentStreamingContent ++ c ∧
    (processUnifiedEvent st (.text_delta c)).currentStreamingContent
      = st.currentStreamingContent ++ c := by
  constructor <;>
  · show (if c ≠ "" then _ else st).currentStreamingContent = _
    split
    · split <;> simp [createEmptyBotMessage, hideTypingIndicator]
    · next hc =>
      rw [not_ne_iff.mp hc, String.append_empty]

theorem textEventContent_eq_some (e : UEvent) (c : String)
    (h : textEventContent e = some c) : e = .text c ∨ e = .text_delta c := by
  cases e <;> simp_all [textEventContent]

/-- **C5** (confirmed).  Processing any sequence of `text` / `text_delta`
events in arrival order appends the concatenation of their contents to the
accumulated streaming text; from an empty accumulator the result is
exactly `c1 ‖ c2 ‖ ... ‖ cN`. -/
theorem streaming_text_accumulation (st : ChatState) (es : List UEvent)
    (h : ∀ e ∈ es, (textEventContent e).isSome) :
    (es.foldl processUnifiedEvent st).currentStreamingContent
      = st.currentStreamingContent ++ catList (es.filterMap textEventContent) := by
  induction es generalizing st with
  | nil => simp [catList, String.append_empty]
  | cons e es ih =>
    have he := h e (List.mem_cons_self e es)
    have hes : ∀ x ∈ es, (textEventContent x).isSome :=
      fun x hx => h x (List.mem_cons_of_mem e hx)
    obtain ⟨c, hc⟩ := Option.isSome_iff_exists.mp he
    have hstep : (processUnifiedEvent st e).currentStreamingContent
        = st.currentStreamingContent ++ c := by
      rcases textEventContent_eq_some e c hc with rfl | rfl
      · exact (processUnifiedEvent_text_content st c).1
      · exact (processUnifiedEvent_text_content st c).2
    calc (List.foldl processUnifiedEvent st (e :: es)).currentStreamingContent
        = (processUnifiedEvent st e).currentStreamingContent
            ++ catList (es.filterMap textEventContent) := ih _ hes
      _ = st.currentStreamingContent ++ (c ++ catList (es.filterMap textEventContent)) := by
            rw [hstep, String.append_assoc]
      _ = st.currentStreamingContent ++ catList ((e :: es).filterMap textEventContent) := by
            rw [List.filterMap_cons, hc]
            rfl

/-- Witness for C5 (spec scenario 1): the deltas `"Hello "` and `"world"`
accumulate to `"Hello world"`. -/
theorem streaming_text_accumulation_witness :
    (([UEvent.text_delta "Hello ", UEvent.text_delta "world"].foldl
        processUnifiedEvent initialChatState).currentStreamingContent
      = initialChatState.currentStreamingContent
          ++ catList ([UEvent.text_delta "Hello ",
                UEvent.text_delta "world"].filterMap textEventContent)) ∧
    initialChatState.currentStreamingContent
        ++ catList ([UEvent.text_delta "Hello ",
              UEvent.text_delta "world"].filterMap textEventContent)
      = "Hello world" :=
  ⟨streaming_text_accumulation initialChatState
      [UEvent.text_delta "Hello ", UEvent.text_delta "world"] (by decide), by decide⟩

/-- **C3** (corrected).  The local reset of `clearSession` is *not*
unconditional: it sits after the awaited DELETE inside the `try`, so a
rejected fetch skips every reset.  What does hold: on any *settled*
response (the status is never inspected) the history, tool-result cache,
resume flag and session id are reset — while the attached document
reference survives both paths. -/
theorem clear_session_reset_requires_resolved_delete (st : ChatState) (nonce : String) :
    ((clearSession st .rejected nonce).chatHistory = st.chatHistory ∧
     (clearSession st .rejected nonce).sessionId = st.sessionId ∧
     (clearSession st .rejected nonce).sessionState = st.sessionState ∧
     (clearSession st .rejected nonce).resumeUploaded = st.resumeUploaded ∧
     (clearSession st .rejected nonce).uploadedFile = st.uploadedFile) ∧
    ((clearSession st .resolved nonce).chatHistory = [] ∧
     (clearSession st .resolved nonce).sessionState = ⟨none, [], []⟩ ∧
     (clearSession st .resolved nonce).resumeUploaded = false ∧
     (clearSession st .resolved nonce).sessionId = some (mkSessionId nonce) ∧
     (clearSession st .resolved nonce).uploadedFile = st.uploadedFile) := by
  simp [clearSession, showNotification]

/-- **C3 counterexample**: when the DELETE fetch rejects, the history,
session id and cached resume analysis all survive — the local reset is
skipped, contradicting "reset even when the server-side DELETE request
fails".  And even a resolved DELETE leaves the attached document in
place. -/
theorem clear_session_reset_not_unconditional :
    (clearSession c3ExState .rejected "17-x").chatHistory ≠ [] ∧
    (clearSession c3ExState .rejected "17-x").sessionId = some "session-old" ∧
    (clearSession c3ExState .rejected "17-x").sessionState.resumeAnalysis ≠ none ∧
    (clearSession c3ExState .resolved "17-x").uploadedFile ≠ none := by
  decide

/-- **C4** (corrected).  Announcing a (non-web-search) tool hides only the
web-search indicator and *appends* a new tool indicator — a previously
visible tool-execution indicator is left in place, so exclusivity holds
against the web-search indicator but not between two generic tool
indicators. -/
theorem tool_announce_hides_only_web_search_indicator (st : ChatState) (tn : String)
    (h : tn ≠ "web_search") :
    (processUnifiedEvent st (.tool_use_start tn)).webSearchIndicator = false ∧
    (processUnifiedEvent st (.tool_use_start tn)).toolIndicators
      = st.toolIndicators ++ [toolDisplayName tn] ∧
    (processUnifiedEvent st (.content_block_start (some ⟨"server_tool_use", tn⟩))).webSearchIndicator
      = false ∧
    (processUnifiedEvent st (.content_block_start (some ⟨"server_tool_use", tn⟩))).toolIndicators
      = st.toolIndicators ++ [toolDisplayName tn] := by
    unfold processUnifiedEvent
    simp [h, showToolExecutionIndicator, hideWebSearchIndicator]

/-- Witness for C4: announcing `analyze_resume` while the web-search
indicator is visible hides it and appends the tool label. -/
theorem tool_announce_hides_only_web_search_indicator_witness :
    (processUnifiedEvent { initialChatState with webSearchIndicator := true }
        (.tool_use_start "analyze_resume")).webSearchIndicator = false ∧
    (processUnifiedEvent { initialChatState with webSearchIndicator := true }
        (.tool_use_start "analyze_resume")).toolIndicators
      = { initialChatState with webSearchIndicator := true }.toolIndicators
          ++ [toolDisplayName "analyze_resume"] :=
  ⟨(tool_announce_hides_only_web_search_indicator _ "analyze_resume" (by decide)).1,
   (tool_announce_hides_only_web_search_indicator _ "analyze_resume" (by decide)).2.1⟩

/-- **C4 counterexample**: two consecutive tool announcements leave *two*
indicator elements in the DOM — the first is never hidden — refuting "at
most one tool indicator is visible" and "the prior indicator is hidden
before the new one is shown". -/
theorem tool_indicator_exclusivity_violated :
    visibleIndicatorCount
      (processUnifiedEvent
        (processUnifiedEvent initialChatState (.tool_use_start "analyze_resume"))
        (.tool_use_start "match_jobs_with_resume")) = 2 ∧
    (processUnifiedEvent
      (processUnifiedEvent initialChatState (.tool_use_start "analyze_resume"))
      (.tool_use_start "match_jobs_with_resume")).toolIndicators
        = [toolDisplayName "analyze_resume", toolDisplayName "match_jobs_with_resume"] := by
  decide

theorem handleToolResult_match_jobs (s : ChatState) (r : ToolResult)
    (ms : List JobMatch) (h2 : r.«matches» = some ms) :
    handleToolResult s "match_jobs_with_resume" (some r) = displayJobMatches s ms := by
  unfold handleToolResult
  rw [if_neg (by decide), if_pos rfl]
  show (match r.«matches» with
        | some ms => displayJobMatches s ms
        | none => s) = displayJobMatches s ms
  rw [h2]

/-- **C6** (corrected).  Matches from a `match_jobs_with_resume` result
*are* forwarded to the job panel, but `displayJobMatches` tags the call
`'matched'`, not `'personalized'`; consequently the personalized-match
affordance (driven only by `matchType === 'personalized'`) is not added on
this path. -/
theorem job_match_results_forwarded_with_matched_tag (st : ChatState) (r : ToolResult)
    (ms : List JobMatch) (h1 : st.jobsManagerAvailable = true)
    (h2 : r.«matches» = some ms) :
    (processUnifiedEvent st
        (.tool_execution_complete "match_jobs_with_resume" (some r))).panelCalls
      = st.panelCalls ++ [⟨ms.map matchToPanelJob, "matched"⟩] ∧
    (processUnifiedEvent st
        (.tool_execution_complete "match_jobs_with_resume" (some r))).personalizedIndicator
      = st.personalizedIndicator := by
  have havail : (hideToolExecutionIndicator st).jobsManagerAvailable = true := h1
  have hred : processUnifiedEvent st
      (.tool_execution_complete "match_jobs_with_resume" (some r))
      = handleToolResult (hideToolExecutionIndicator st)
          "match_jobs_with_resume" (some r) := rfl
  rw [hred, handleToolResult_match_jobs _ r ms h2]
  unfold displayJobMatches displayJobsInPanel
  dsimp only
  rw [if_pos havail, if_pos havail, if_neg (by decide : ¬ ("matched" = "personalized"))]
  simp [showNotification, hideToolExecutionIndicator]

/-- Witness for C6: a concrete one-match result is forwarded once, tagged
`matched`, leaving the personalized badge untouched. -/
theorem job_match_results_forwarded_with_matched_tag_witness :
    (processUnifiedEvent initialChatState
        (.tool_execution_complete "match_jobs_with_resume" (some exMatchResult))).panelCalls
      = initialChatState.panelCalls ++ [⟨[exJobMatch].map matchToPanelJob, "matched"⟩] ∧
    (processUnifiedEvent initialChatState
        (.tool_execution_complete "match_jobs_with_resume" (some exMatchResult))).personalizedIndicator
      = initialChatState.personalizedIndicator :=
  job_match_results_forwarded_with_matched_tag initialChatState exMatchResult
    [exJobMatch] (by decide) (by decide)

/-- **C6 counterexample**: the single forwarded call carries the tag
`'matched'`, not `'personalized'`, and the personalized-match affordance
stays hidden — refuting "the matches are forwarded … tagged
`personalized`". -/
theorem job_match_forward_not_tagged_personalized :
    (processUnifiedEvent initialChatState
        (.tool_execution_complete "match_jobs_with_resume" (some exMatchResult))).panelCalls
      = [⟨[matchToPanelJob exJobMatch], "matched"⟩] ∧
    ("matched" : String) ≠ "personalized" ∧
    (processUnifiedEvent initialChatState
        (.tool_execution_complete "match_jobs_with_resume" (some exMatchResult))).personalizedIndicator
      = false := by
  decide

/-- **C7** (corrected).  After a clear whose DELETE settles, a freshly
generated session id is installed and the history is empty — but the
uploaded-document reference survives, so the next outgoing request still
carries `uploaded_file` (and forces `resume_uploaded` to `true`). -/
theorem clear_session_fresh_id_empty_history_retained_attachment (st : ChatState)
    (nonce : String) (h : some (mkSessionId nonce) ≠ st.sessionId) :
    (clearSession st .resolved nonce).sessionId ≠ st.sessionId ∧
    (clearSession st .resolved nonce).chatHistory.length = 0 ∧
    (buildContext (clearSession st .resolved nonce)).uploaded_file = st.uploadedFile := by
  refine ⟨?_, by simp [clearSession, showNotification], ?_⟩
  · simpa [clearSession, showNotification] using h
  · cases hu : st.uploadedFile <;>
      simp [clearSession, showNotification, buildContext, hu]

/-- Witness for C7 at a concrete mid-conversation state. -/
theorem clear_session_fresh_id_empty_history_retained_attachment_witness :
    (clearSession c7ExState .resolved "42-z").sessionId ≠ c7ExState.sessionId ∧
    (clearSession c7ExState .resolved "42-z").chatHistory.length = 0 ∧
    (buildContext (clearSession c7ExState .resolved "42-z")).uploaded_file
      = c7ExState.uploadedFile :=
  clear_session_fresh_id_empty_history_retained_attachment c7ExState "42-z" (by decide)

/-- **C7 counterexample**: after `clear()` (resolved DELETE) the next
turn's request context still carries the previously uploaded file, so
"the attached uploaded-document reference is cleared (the next outgoing
request carries no uploaded_file)" fails; the first two expectations of
the scenario do hold. -/
theorem clear_then_new_turn_still_carries_uploaded_file :
    (clearSession c7ExState .resolved "42-z").sessionId ≠ c7ExState.sessionId ∧
    (clearSession c7ExState .resolved "42-z").chatHistory.length = 0 ∧
    (buildContext (clearSession c7ExState .resolved "42-z")).uploaded_file
      = some ⟨"resume.pdf"⟩ ∧
    (buildContext (clearSession c7ExState .resolved "42-z")).uploaded_file ≠ none ∧
    (buildContext (clearSession c7ExState .resolved "42-z")).resume_uploaded = true := by
  decide

theorem isTyping_handleToolResult (st : ChatState) (tn : String)
    (result : Option ToolResult) :
    (handleToolResult st tn result).isTyping = st.isTyping := by
  unfold handleToolResult displayJobMatches displayJobsInPanel
    addPersonalizedMatchIndicator showNotification fallbackDisplayJobs
    hideWebSearchIndicator displaySkillHeatmap
  (repeat' split) <;> rfl

theorem isTyping_processUnifiedEvent (st : ChatState) (e : UEvent) :
    (processUnifiedEvent st e).isTyping = st.isTyping := by
  cases e with
  | start => rfl
  | text_start => rfl
  | text content =>
    unfold processUnifiedEvent
    dsimp only
    (repeat' split) <;> simp [createEmptyBotMessage, hideTypingIndicator]
  | text_delta content =>
    unfold processUnifiedEvent
    dsimp only
    (repeat' split) <;> simp [createEmptyBotMessage, hideTypingIndicator]
  | content_block_start cb =>
    cases cb with
    | none => rfl
    | some b =>
      unfold processUnifiedEvent
      dsimp only
      (repeat' split) <;>
        simp [showWebSearchIndicator, showToolExecutionIndicator, hideWebSearchIndicator]
  | tool_use_start tn =>
    unfold processUnifiedEvent
    dsimp only
    (repeat' split) <;>
      simp [showWebSearchIndicator, showToolExecutionIndicator, hideWebSearchIndicator]
  | web_search_result => rfl
  | tool_input_delta => rfl
  | tool_execution_start tn =>
    show (updateToolExecutionIndicator st tn "executing").isTyping = st.isTyping
    unfold updateToolExecutionIndicator
    (repeat' split) <;> rfl
  | tool_execution_complete tn result =>
    show (handleToolResult (hideToolExecutionIndicator st) tn result).isTyping = st.isTyping
    rw [isTyping_handleToolResult]
    rfl
  | conversation_complete => rfl
  | error content => rfl
  | job_data jobs mt =>
    cases jobs with
    | none => rfl
    | some js =>
      show (displayJobsInPanel st (js.map rawPanelJob) (mt.getD "general")).isTyping
        = st.isTyping
      unfold displayJobsInPanel addPersonalizedMatchIndicator showNotification
        fallbackDisplayJobs
      (repeat' split) <;> rfl
  | complete sid => rfl
  | unknown => rfl

theorem isTyping_streamStep (st : ChatState) (e : UEvent) :
    (streamStep st e).isTyping = st.isTyping := by
  cases e <;>
    simp only [streamStep] <;>
    rw [isTyping_processUnifiedEvent]

theorem isTyping_runStream (es : List UEvent) :
    ∀ st : ChatState, (runStream st es).isTyping = st.isTyping := by
  induction es with
  | nil => intro st; rfl
  | cons e es ih =>
    intro st
    show (runStream (streamStep st e) es).isTyping = st.isTyping
    rw [ih (streamStep st e), isTyping_streamStep]

/-- **C9** (confirmed).  While a turn is in progress (`isTyping` is set —
it is raised before the first `await` of `sendMessageToUnifiedBot` and
lowered only in its `finally`), `handleSendMessage` returns without
issuing a request or touching state, and no event of the in-flight stream
ever lowers the flag; hence a second stream can never start while one is
being processed. -/
theorem turn_guard_rejects_concurrent_send (st : ChatState) (rawInput : String)
    (es : List UEvent) (h : st.isTyping = true) :
    handleSendMessage st rawInput = (st, false) ∧
    (runStream st es).isTyping = true := by
  constructor
  · unfold handleSendMessage
    rw [if_pos (Or.inr h)]
  · rw [isTyping_runStream es st, h]

/-- Witness for C9: with a turn in flight, a nonempty send attempt is
rejected and the flag stays up across further stream events. -/
theorem turn_guard_rejects_concurrent_send_witness :
    handleSendMessage { initialChatState with isTyping := true } "hello?"
      = ({ initialChatState with isTyping := true }, false) ∧
    (runStream { initialChatState with isTyping := true }
        [UEvent.text_delta "hi", UEvent.complete "session-2"]).isTyping = true :=
  turn_guard_rejects_concurrent_send { initialChatState with isTyping := true }
    "hello?" [UEvent.text_delta "hi", UEvent.complete "session-2"] rfl

/-- **C10** (confirmed).  An `analyze_resume` completion whose result is
absent or carries a truthy `error` leaves `handleToolResult` a no-op —
`sessionState.resumeAnalysis` and all other instance state survive; the
event as a whole touches nothing but the indicator element. -/
theorem resume_analysis_cache_unchanged_on_error_result (st : ChatState)
    (result : Option ToolResult)
    (h : (result.getD ⟨true, none, false⟩).error = true) :
    handleToolResult st "analyze_resume" result = st ∧
    (processUnifiedEvent st
        (.tool_execution_complete "analyze_resume" result)).sessionState
      = st.sessionState := by
  have key : ∀ s : ChatState, handleToolResult s "analyze_resume" result = s := by
    intro s
    unfold handleToolResult
    rw [if_pos rfl]
    cases result with
    | none => rfl
    | some r =>
      show (if r.error = false then _ else s) = s
      rw [if_neg]
      rw [Option.getD_some] at h
      simp [h]
  refine ⟨key st, ?_⟩
  rw [show (processUnifiedEvent st (.tool_execution_complete "analyze_resume" result))
        = handleToolResult (hideToolExecutionIndicator st) "analyze_resume" result from rfl,
      key (hideToolExecutionIndicator st)]
  rfl

/-- Witness for C10: an errored result and an absent result both leave a
populated cache untouched. -/
theorem resume_analysis_cache_unchanged_on_error_result_witness :
    ((some ⟨true, some [], false⟩ : Option ToolResult).getD ⟨true, none, false⟩).error = true ∧
    handleToolResult c3ExState "analyze_resume" (some ⟨true, some [], false⟩) = c3ExState ∧
    (processUnifiedEvent c3ExState
        (.tool_execution_complete "analyze_resume" none)).sessionState
      = c3ExState.sessionState :=
  ⟨by decide,
   (resume_analysis_cache_unchanged_on_error_result c3ExState
      (some ⟨true, some [], false⟩) (by decide)).1,
   (resume_analysis_cache_unchanged_on_error_result c3ExState none (by decide)).2⟩

end JobCatcher
